import Mathlib

/-!
Verification of the hst_marketing utility scripts.

This file gives a shallow embedding, in Lean 4, of the port allocator
(src/utils/port-manager.js), the process supervisor and browser utilities
(src/unnamed/part_005), the startup sequencer (src/start.js), the health
checker (src/unnamed/part_006) and the setup validator
(src/scripts/validate-setup.js), and proves or refutes the behavioural
claims made about them.

Machine integers do not occur: ports, counters and exit codes are small
naturals or integers with no overflow in the source. Asynchrony is
modelled by sequentialising the event-loop steps that the single-threaded
runtime serialises anyway, and real-time delays (restartDelay, the 5 s
grace period, the 10 s exit wait) are modelled by the order in which the
corresponding callbacks fire, not by clock values.
-/

namespace HstMarketing

/-! ## Port allocator (src/utils/port-manager.js)

`PortManager` keeps `this.reservedPorts = new Set()`. A JavaScript `Set`
iterates in insertion order and `add` is a no-op on a present element, so
it is embedded as a duplicate-free list extended by `setAdd`. -/

/-- JavaScript `Set.prototype.add`: append the element unless present. -/
def setAdd (s : List Nat) (p : Nat) : List Nat :=
  if p ∈ s then s else s ++ [p]

/-- The in-process allocator state: `this.reservedPorts` of `PortManager`
(src/utils/port-manager.js line 12). -/
structure PortState where
  reservedPorts : List Nat
  deriving DecidableEq

/-- Method `reservePort(port)` (src/utils/port-manager.js lines 103-105):
`this.reservedPorts.add(port)`. -/
def PortState.reservePort (st : PortState) (p : Nat) : PortState :=
  { reservedPorts := setAdd st.reservedPorts p }

/-- The options object of `findAvailablePort` (src/utils/port-manager.js
lines 20-24) with its defaults. The source destructures
`portRange = [3000, 9999]` but only ever reads `portRange[1]`. -/
structure FindPortOptions where
  portRangeLo : Nat := 3000
  portRangeHi : Nat := 9999
  reservePort : Bool := true
  avoid : List Nat := []
  deriving DecidableEq

/-- The result object of `findAvailablePort` (the `message` string is
omitted; it is a pure function of `port` and `isPreferred`). -/
structure PortResult where
  port : Nat
  isPreferred : Bool
  deriving DecidableEq

/-- The `testPort` closure of `findAvailablePort` (src/utils/port-manager.js
lines 29-48): a port passes iff it is outside
`excludePorts = new Set([...this.reservedPorts, ...avoid])` and the
throwaway `net` listener can bind it. `boundPorts p = true` means the
operating system refuses to bind port `p` at the moment of the call. -/
def portFree (st : PortState) (opts : FindPortOptions) (boundPorts : Nat → Bool)
    (p : Nat) : Bool :=
  if p ∈ st.reservedPorts ++ opts.avoid then false else !(boundPorts p)

/-- The sequential scan `for (let port = start; ...; port++)` limited to
`fuel` iterations: first port passing `test`, if any. -/
def searchFrom (test : Nat → Bool) : Nat → Nat → Option Nat
  | _, 0 => none
  | start, fuel + 1 => if test start then some start else searchFrom test (start + 1) fuel

/-- Method `findAvailablePort(preferredPort, options)` (src/utils/port-manager.js
lines 19-79). Tries the preferred port; otherwise scans
`preferredPort + 1 .. portRange[1]` (the loop body runs
`portRange[1] - preferredPort` times); reserves the returned port when
`reservePort` is set; `none` models the thrown
`Cannot find available port in range` error. -/
def findAvailablePort (st : PortState) (boundPorts : Nat → Bool) (preferredPort : Nat)
    (opts : FindPortOptions) : Option (PortResult × PortState) :=
  let test := portFree st opts boundPorts
  if test preferredPort then
    some (⟨preferredPort, true⟩,
      if opts.reservePort then st.reservePort preferredPort else st)
  else
    match searchFrom test (preferredPort + 1) (opts.portRangeHi - preferredPort) with
    | some p => some (⟨p, false⟩, if opts.reservePort then st.reservePort p else st)
    | none => none

theorem setAdd_mem_self (s : List Nat) (p : Nat) : p ∈ setAdd s p := by
  unfold setAdd
  by_cases h : p ∈ s
  · simp [setAdd, h]
  · simp [h]

theorem setAdd_of_mem {s : List Nat} {p : Nat} (h : p ∈ s) : setAdd s p = s := by
  simp [setAdd, h]

theorem searchFrom_eq_some_of_first {test : Nat → Bool} {p : Nat} :
    ∀ fuel start, test p = true → start ≤ p → p < start + fuel →
      (∀ q, start ≤ q → q < p → test q = false) →
      searchFrom test start fuel = some p := by
  intro fuel
  induction fuel with
  | zero => intro start _ h1 h2 _; omega
  | succ n ih =>
    intro start hp h1 h2 hmin
    by_cases hs : start = p
    · subst hs; simp [searchFrom, hp]
    · have hlt : start < p := lt_of_le_of_ne h1 hs
      have hfail : test start = false := hmin start le_rfl hlt
      simp only [searchFrom, hfail]
      exact ih (start + 1) hp (by omega) (by omega) (fun q hq1 hq2 => hmin q (by omega) hq2)

theorem searchFrom_eq_none_of_all_fail {test : Nat → Bool} :
    ∀ fuel start, (∀ q, start ≤ q → q < start + fuel → test q = false) →
      searchFrom test start fuel = none := by
  intro fuel
  induction fuel with
  | zero => intro start _; rfl
  | succ n ih =>
    intro start hfail
    have h0 : test start = false := hfail start le_rfl (by omega)
    simp only [searchFrom, h0]
    exact ih (start + 1) (fun q hq1 hq2 => hfail q (by omega) (by omega))

theorem searchFrom_some_spec {test : Nat → Bool} {p : Nat} :
    ∀ fuel start, searchFrom test start fuel = some p →
      test p = true ∧ start ≤ p ∧ p < start + fuel := by
  intro fuel
  induction fuel with
  | zero => intro start h; simp [searchFrom] at h
  | succ n ih =>
    intro start h
    simp only [searchFrom] at h
    by_cases hs : test start = true
    · simp [hs] at h
      subst h
      exact ⟨hs, le_rfl, by omega⟩
    · simp [hs] at h
      obtain ⟨h1, h2, h3⟩ := ih (start + 1) h
      exact ⟨h1, by omega, by omega⟩

theorem portFree_not_reserved {st : PortState} {opts : FindPortOptions}
    {boundPorts : Nat → Bool} {p : Nat} (h : portFree st opts boundPorts p = true) :
    p ∉ st.reservedPorts := by
  intro hmem
  simp [portFree, List.mem_append, hmem] at h

/-- Claim C3: `findAvailablePort` first tests the preferred port; when that
port fails the availability test it scans sequentially upward to the upper
end of `portRange` and returns the first available port with
`isPreferred := false`; when no port of the span is available it throws
(modelled as `none`). -/
theorem findAvailablePort_sequential_scan (st : PortState) (boundPorts : Nat → Bool)
    (preferredPort : Nat) (opts : FindPortOptions) :
    (∀ p, portFree st opts boundPorts preferredPort = false →
      preferredPort < p → p ≤ opts.portRangeHi →
      portFree st opts boundPorts p = true →
      (∀ q, preferredPort < q → q < p → portFree st opts boundPorts q = false) →
      ∃ st2, findAvailablePort st boundPorts preferredPort opts = some (⟨p, false⟩, st2)) ∧
    ((portFree st opts boundPorts preferredPort = false ∧
      ∀ q, preferredPort < q → q ≤ opts.portRangeHi →
        portFree st opts boundPorts q = false) →
      findAvailablePort st boundPorts preferredPort opts = none) := by
  constructor
  · intro p hpref hlt hle hfree hmin
    have hsearch : searchFrom (portFree st opts boundPorts) (preferredPort + 1)
        (opts.portRangeHi - preferredPort) = some p :=
      searchFrom_eq_some_of_first _ _ hfree (by omega) (by omega)
        (fun q hq1 hq2 => hmin q (by omega) hq2)
    refine ⟨if opts.reservePort then st.reservePort p else st, ?_⟩
    simp only [findAvailablePort, hpref, Bool.false_eq_true, if_false, hsearch]
  · rintro ⟨hpref, hall⟩
    have hsearch : searchFrom (portFree st opts boundPorts) (preferredPort + 1)
        (opts.portRangeHi - preferredPort) = none :=
      searchFrom_eq_none_of_all_fail _ _ (fun q hq1 hq2 => hall q (by omega) (by omega))
    simp only [findAvailablePort, hpref, Bool.false_eq_true, if_false, hsearch]

/-- Witness for C3: the scenario of the claim. Ports 3000-3002 are already
bound externally, the range is `[3000, 3005]`, so the call returns port
3003 with `isPreferred := false`. -/
theorem findAvailablePort_sequential_scan_witness :
    ∃ st2, findAvailablePort ⟨[]⟩ (fun q => decide (q ≤ 3002)) 3000
      ⟨3000, 3005, true, []⟩ = some (⟨3003, false⟩, st2) :=
  (findAvailablePort_sequential_scan ⟨[]⟩ (fun q => decide (q ≤ 3002)) 3000
      ⟨3000, 3005, true, []⟩).1 3003 (by decide) (by decide) (by decide) (by decide)
    (by intro q h1 h2; interval_cases q <;> decide)

/-- Counterexample to C4 as stated: with the default options
(`reservePort := true`) the call is not idempotent and does change
persistent state. On a machine with every port bindable and an empty
reserved set, the first call returns port 3000 and records the
reservation; the immediately repeated call returns port 3001 and grows
the reserved set again. -/
theorem findAvailablePort_not_idempotent_counterexample :
    findAvailablePort ⟨[]⟩ (fun _ => false) 3000 {} =
      some (⟨3000, true⟩, ⟨[3000]⟩) ∧
    findAvailablePort ⟨[3000]⟩ (fun _ => false) 3000 {} =
      some (⟨3001, false⟩, ⟨[3000, 3001]⟩) := by
  constructor
  · rfl
  · rfl

/-- Claim C4 as amended: with `reservePort := false` the call leaves the
reserved-port set unchanged (hence repeated calls return the same result
and there is no persistent side effect), and reserving an
already-reserved port is a no-op (set semantics). With the default
`reservePort := true` each successful call records the returned port, so
repetition is not a no-op (see the counterexample). -/
theorem findAvailablePort_no_reserve_idempotent (st : PortState) (boundPorts : Nat → Bool)
    (preferredPort lo hi : Nat) (avoidList : List Nat) :
    ((findAvailablePort st boundPorts preferredPort ⟨lo, hi, false, avoidList⟩).map Prod.snd =
      (findAvailablePort st boundPorts preferredPort ⟨lo, hi, false, avoidList⟩).map
        (fun _ => st)) ∧
    (∀ p, (st.reservePort p).reservePort p = st.reservePort p) := by
  constructor
  · unfold findAvailablePort
    by_cases hpref : portFree st ⟨lo, hi, false, avoidList⟩ boundPorts preferredPort = true
    · simp [hpref]
    · simp only [Bool.not_eq_true] at hpref
      cases hsearch : searchFrom (portFree st ⟨lo, hi, false, avoidList⟩ boundPorts)
          (preferredPort + 1) (hi - preferredPort) with
      | none => simp [hpref, hsearch]
      | some p => simp [hpref, hsearch]
  · intro p
    show PortState.reservePort ⟨setAdd st.reservedPorts p⟩ p = _
    simp [PortState.reservePort, setAdd_of_mem (setAdd_mem_self st.reservedPorts p)]

/-- Claim C5: a port currently in `reservedPorts` is never returned, and
for a preferred port the operating system refuses to bind, the call
returns the first port at or above the preferred one that is neither
bound nor reserved nor in the avoid list. -/
theorem findAvailablePort_reserved_excluded (st : PortState) (boundPorts : Nat → Bool)
    (preferredPort : Nat) (opts : FindPortOptions) :
    (∀ r st2, findAvailablePort st boundPorts preferredPort opts = some (r, st2) →
      r.port ∉ st.reservedPorts) ∧
    (boundPorts preferredPort = true →
      ∀ p, preferredPort ≤ p → p ≤ opts.portRangeHi →
        portFree st opts boundPorts p = true →
        (∀ q, preferredPort ≤ q → q < p → portFree st opts boundPorts q = false) →
        ∃ st2, findAvailablePort st boundPorts preferredPort opts = some (⟨p, false⟩, st2)) := by
  constructor
  · intro r st2 h
    unfold findAvailablePort at h
    by_cases hpref : portFree st opts boundPorts preferredPort = true
    · simp only [hpref, if_true, Option.some.injEq, Prod.mk.injEq] at h
      obtain ⟨hr, -⟩ := h
      subst hr
      exact portFree_not_reserved hpref
    · simp only [Bool.not_eq_true] at hpref
      simp only [hpref, Bool.false_eq_true, if_false] at h
      cases hsearch : searchFrom (portFree st opts boundPorts) (preferredPort + 1)
          (opts.portRangeHi - preferredPort) with
      | none => simp [hsearch] at h
      | some q =>
        simp only [hsearch, Option.some.injEq, Prod.mk.injEq] at h
        obtain ⟨hr, -⟩ := h
        subst hr
        exact portFree_not_reserved (searchFrom_some_spec _ _ hsearch).1
  · intro hbound p hple hphi hpfree hmin
    have hpref : portFree st opts boundPorts preferredPort = false := by
      unfold portFree
      by_cases hmem : preferredPort ∈ st.reservedPorts ++ opts.avoid
      · simp [hmem]
      · simp [hmem, hbound]
    have hne : preferredPort < p := by
      rcases lt_or_eq_of_le hple with h | h
      · exact h
      · subst h; rw [hpref] at hpfree; exact absurd hpfree (by simp)
    have hsearch : searchFrom (portFree st opts boundPorts) (preferredPort + 1)
        (opts.portRangeHi - preferredPort) = some p :=
      searchFrom_eq_some_of_first _ _ hpfree (by omega) (by omega)
        (fun q hq1 hq2 => hmin q (by omega) hq2)
    refine ⟨if opts.reservePort then st.reservePort p else st, ?_⟩
    simp only [findAvailablePort, hpref, Bool.false_eq_true, if_false, hsearch]

/-- Witness for C5: with port 3000 bound by the OS, port 3001 reserved
in-process and port 3002 in the avoid list, the call returns 3003, which
is not in the reserved set. -/
theorem findAvailablePort_reserved_excluded_witness :
    (3003 ∉ ([3001] : List Nat)) ∧
    ∃ st2, findAvailablePort ⟨[3001]⟩ (fun q => decide (q = 3000)) 3000
      ⟨3000, 3005, true, [3002]⟩ = some (⟨3003, false⟩, st2) := by
  refine ⟨by decide, ?_⟩
  have h := (findAvailablePort_reserved_excluded ⟨[3001]⟩ (fun q => decide (q = 3000)) 3000
      ⟨3000, 3005, true, [3002]⟩).2 (by decide) 3003 (by decide) (by decide) (by decide)
    (by intro q h1 h2; interval_cases q <;> decide)
  exact h

/-! ## Process supervisor (src/unnamed/part_005, class ProcessManager)

The registry `this.processes` is a `Map` from name to a config object;
it is embedded as an association list with unique keys. The exit handler
installed by `spawnProcess` (lines 582-611) and the spawn itself
(lines 514-645) are embedded as pure state transformers; `spawnAttempts`
counts the calls to `spawn(command, ...)`, i.e. the OS-level spawn
attempts. -/

/-- The options argument of `spawnProcess` (src/unnamed/part_005 lines
515-526), restricted to the fields the restart logic reads. -/
structure SpawnOptions where
  retries : Nat := 0
  restartDelay : Nat := 5000
  deriving DecidableEq

/-- The `processConfig` record built by `spawnProcess` (src/unnamed/part_005
lines 532-543), restricted to the fields the exit handler reads. -/
structure ProcEntry where
  command : String
  args : List String
  opts : SpawnOptions
  restartCount : Nat
  maxRestarts : Nat
  status : String
  deriving DecidableEq

/-- The supervisor state: registry, the shared `isShuttingDown` flag, and a
count of spawn attempts performed so far. -/
structure PMState where
  processes : List (String × ProcEntry)
  isShuttingDown : Bool
  spawnAttempts : Nat
  deriving DecidableEq

/-- Registry lookup, i.e. `Map.get`. -/
def lookupProc (name : String) : List (String × ProcEntry) → Option ProcEntry
  | [] => none
  | (n, e) :: rest => if n = name then some e else lookupProc name rest

/-- Registry deletion, i.e. `Map.delete`. -/
def eraseProc (name : String) (ps : List (String × ProcEntry)) :
    List (String × ProcEntry) :=
  ps.filter (fun q => decide (q.1 ≠ name))

/-- Method `spawnProcess(name, command, args, options)` (src/unnamed/part_005 lines
514-554): rejects a duplicate name, otherwise registers a fresh config —
always with `restartCount: 0` and `maxRestarts: retries` — and performs
one OS spawn attempt. -/
def spawnProcess (st : PMState) (name command : String) (args : List String)
    (opts : SpawnOptions) : Except String PMState :=
  if (lookupProc name st.processes).isSome then
    Except.error "process is already running"
  else
    Except.ok { st with
      processes := st.processes ++ [(name,
        { command := command, args := args, opts := opts,
          restartCount := 0, maxRestarts := opts.retries, status := "starting" })],
      spawnAttempts := st.spawnAttempts + 1 }

/-- The `exit` handler installed by `spawnProcess` (src/unnamed/part_005
lines 582-611) together with the restart callback it schedules: when the
exit code is non-zero, the entry's `restartCount` is below its
`maxRestarts` and the supervisor is not shutting down, the handler
increments `restartCount` on the current config (line 597) but the
scheduled callback then deletes that entry and calls `spawnProcess`
again with the original `name, command, args, options` (lines 602-603) —
which rebuilds the config with `restartCount: 0`, discarding the
increment; otherwise the entry is deleted. -/
def processExitHandler (st : PMState) (name : String) (code : Int) : PMState :=
  match lookupProc name st.processes with
  | none => st
  | some e =>
    if code ≠ 0 ∧ e.restartCount < e.maxRestarts ∧ st.isShuttingDown = false then
      let st2 : PMState := { st with processes := eraseProc name st.processes }
      match spawnProcess st2 name e.command e.args e.opts with
      | Except.ok st3 => st3
      | Except.error _ => st2
    else
      { st with processes := eraseProc name st.processes }

/-- Iterated non-zero exits: each step is one exit event of the named
process followed by the restart callback it schedules (restartDelay 0). -/
def iterateExits (name : String) (code : Int) : Nat → PMState → PMState
  | 0, st => st
  | k + 1, st => iterateExits name code k (processExitHandler st name code)

/-- The initial state of the C1 scenario, as produced by
`spawnProcess(x, false, [], retries 2 restartDelay 0)` on an empty
registry: one spawn attempt, one fresh registry entry. -/
def c1State0 : PMState :=
  { processes := [("x",
      { command := "false", args := [], opts := ⟨2, 0⟩,
        restartCount := 0, maxRestarts := 2, status := "starting" })],
    isShuttingDown := false,
    spawnAttempts := 1 }

theorem lookupProc_eraseProc_self (name : String) :
    ∀ ps : List (String × ProcEntry), lookupProc name (eraseProc name ps) = none := by
  intro ps
  induction ps with
  | nil => rfl
  | cons q rest ih =>
    by_cases h : q.1 = name
    · simpa [eraseProc, h] using ih
    · simpa [eraseProc, lookupProc, h] using ih

/-- Claim C1, evaluated at the failing input: the scenario
`spawnProcess(x, false, [], retries 2 restartDelay 0)` with the command
exiting with code 1 every time. After only three exit events the
supervisor has already performed four spawn attempts (the claim allows
three in total), the name `x` is still registered, and the live entry's
`restartCount` is 0 again — every respawn rebuilds the config with
`restartCount: 0`, so the `maxRestarts` bound never takes effect and the
process is never removed permanently. -/
theorem restart_bound_never_reached :
    spawnProcess ⟨[], false, 0⟩ "x" "false" [] ⟨2, 0⟩ = Except.ok c1State0 ∧
    (iterateExits "x" 1 3 c1State0).spawnAttempts = 4 ∧
    lookupProc "x" (iterateExits "x" 1 3 c1State0).processes ≠ none ∧
    (lookupProc "x" (iterateExits "x" 1 3 c1State0).processes).map
      (fun e => e.restartCount) = some 0 := by
  refine ⟨rfl, by decide, by decide, by decide⟩

/-- Claim C8: a process that exits with code 0 is removed from the registry
and no respawn attempt happens, whatever its `maxRestarts` value. -/
theorem clean_exit_removes_process (st : PMState) (name : String) (e : ProcEntry)
    (h : lookupProc name st.processes = some e) :
    lookupProc name (processExitHandler st name 0).processes = none ∧
    (processExitHandler st name 0).spawnAttempts = st.spawnAttempts := by
  unfold processExitHandler
  rw [h]
  simp only [ne_eq, not_true_eq_false, false_and, if_false]
  exact ⟨lookupProc_eraseProc_self name st.processes, trivial⟩

/-- Witness for C8: a concrete registry entry with `maxRestarts = 2`
exiting with code 0 is removed and causes no further spawn attempt. -/
theorem clean_exit_removes_process_witness :
    lookupProc "x" (processExitHandler c1State0 "x" 0).processes = none ∧
    (processExitHandler c1State0 "x" 0).spawnAttempts = c1State0.spawnAttempts :=
  clean_exit_removes_process c1State0 "x"
    { command := "false", args := [], opts := ⟨2, 0⟩,
      restartCount := 0, maxRestarts := 2, status := "starting" } (by decide)

/-! ## Graceful shutdown (src/unnamed/part_005, killProcess and shutdown)

The child handle is embedded with Node.js semantics: `childProcess.kill(sig)`
delivers the signal when the process is still alive and then sets the
`killed` property — which records that a signal was successfully sent,
not that the process terminated. `killProcess` (lines 688-719) guards both
its own send and its 5-second grace timer with that flag, and `shutdown`
(lines 909-939) calls `killProcess(name, SIGTERM)`, waits up to 10 seconds
via `waitForProcessExit`, falls back to `killProcess(name, SIGKILL)` in its
catch branch, and finally clears the registry. -/

/-- A spawned child as the supervisor sees it: the signals delivered to it
so far, the Node.js `killed` property, and whether the OS process has
already exited. -/
structure ChildHandle where
  receivedSignals : List String
  killed : Bool
  exited : Bool
  deriving DecidableEq

/-- Node call `childProcess.kill(sig)`: delivery succeeds only while the process is
alive; on success the `killed` property becomes true. -/
def childKillAttempt (c : ChildHandle) (sig : String) : ChildHandle :=
  if c.exited then c
  else { c with receivedSignals := c.receivedSignals ++ [sig], killed := true }

/-- Method `killProcess(name, signal)` (src/unnamed/part_005 lines 688-719) as it
affects one child: nothing happens when `childProcess.killed` is already
true; otherwise the signal is sent and, for a signal other than SIGKILL,
a 5-second timer is scheduled that force-kills only if `killed` is still
false when it fires. -/
def killProcessModel (c : ChildHandle) (sig : String) : ChildHandle :=
  if c.killed = false then
    let c1 := childKillAttempt c sig
    if sig ≠ "SIGKILL" ∧ c1.killed = false then childKillAttempt c1 "SIGKILL" else c1
  else c

/-- The per-process body of `shutdown` (src/unnamed/part_005 lines 918-933):
`killProcess(name, SIGTERM)`, then `waitForProcessExit(name, 10000)`;
when the wait times out (`exitsWithinWait = false`) the catch branch runs
`killProcess(name, SIGKILL)`. -/
def shutdownChild (c : ChildHandle) (exitsWithinWait : Bool) : ChildHandle :=
  let c1 := killProcessModel c "SIGTERM"
  if exitsWithinWait then c1 else killProcessModel c1 "SIGKILL"

/-- Method `shutdown()` (src/unnamed/part_005 lines 909-939) over a registry whose
entries carry their child handle and whether the child exits within the
10-second wait: every entry goes through `shutdownChild`, then
`this.processes.clear()` empties the registry. The first component is the
registry after shutdown, the second the final child handles. -/
def shutdownRun (entries : List (String × ChildHandle × Bool)) :
    List (String × ChildHandle × Bool) × List (String × ChildHandle) :=
  ([], entries.map (fun e => (e.1, shutdownChild e.2.1 e.2.2)))

/-- A live child that ignores SIGTERM and never exits. -/
def stubbornChild : ChildHandle :=
  { receivedSignals := [], killed := false, exited := false }

/-- Claim C7, evaluated at the failing input: one registered process whose
child ignores SIGTERM and does not exit within the 10-second wait. After
`shutdown()` the registry is empty and the child has received a
termination signal, but it is never force-killed: both SIGKILL paths are
guarded by `!childProcess.killed`, which is already true once the SIGTERM
delivery succeeded, so the only signal the straggler ever receives is the
initial SIGTERM. -/
theorem shutdown_never_force_kills_straggler :
    (shutdownRun [("dashboard", stubbornChild, false)]).1 = [] ∧
    (shutdownRun [("dashboard", stubbornChild, false)]).2 =
      [("dashboard", ⟨["SIGTERM"], true, false⟩)] ∧
    "SIGKILL" ∉ (shutdownChild stubbornChild false).receivedSignals ∧
    (shutdownChild stubbornChild false).receivedSignals ≠ [] := by
  refine ⟨rfl, by decide, by decide, by decide⟩

/-! ## Startup sequencer (src/start.js, class ViralContentStartup)

Each task of the pipeline either returns a status string or throws. The
task list is constructed with `concurrent: false, exitOnError: false`
(src/start.js lines 552-559). -/

/-- Outcome of one pipeline task: a returned status string or a thrown
error message. -/
inductive StepOutcome
  | ok (msg : String)
  | err (msg : String)
  deriving DecidableEq

/-- True when the task returned rather than threw. -/
def StepOutcome.isOk : StepOutcome → Bool
  | StepOutcome.ok _ => true
  | StepOutcome.err _ => false

/-- JavaScript `String.prototype.includes` for a non-empty pattern. -/
def strIncludes (s pattern : String) : Bool :=
  decide (1 < (s.splitOn pattern).length)

/-- Outcome of an `execAsync` call: captured stdout and stderr on success,
or the error message of the rejection. -/
inductive ExecOutcome
  | success (stdout stderr : String)
  | failure (message : String)
  deriving DecidableEq

/-- Step 5, `validateSystemConfiguration()` (src/start.js lines 247-269): skipped
when requested; on exec success the output is scanned for failure
markers and a warning string is returned; the catch branch also returns
a warning string. No branch throws. -/
def validateSystemConfigurationStep (skipValidation : Bool) (exec : ExecOutcome) :
    StepOutcome :=
  if skipValidation then StepOutcome.ok "Validation skipped"
  else
    match exec with
    | ExecOutcome.success stdout stderr =>
      if strIncludes stderr "FAIL" || strIncludes stdout "❌" then
        StepOutcome.ok "Configuration issues detected (API credentials may need setup)"
      else StepOutcome.ok "System configuration valid"
    | ExecOutcome.failure msg => StepOutcome.ok ("Validation warnings: " ++ msg)

/-- Step 6, `runHealthCheck()` (src/start.js lines 271-294): skipped when requested;
on exec success the stdout is classified; the catch branch returns a
warning string. No branch throws. -/
def runHealthCheckStep (skipHealthCheck : Bool) (exec : ExecOutcome) : StepOutcome :=
  if skipHealthCheck then StepOutcome.ok "Health check skipped"
  else
    match exec with
    | ExecOutcome.success stdout _ =>
      if strIncludes stdout "HEALTHY" then StepOutcome.ok "System health check passed"
      else if strIncludes stdout "DEGRADED" then
        StepOutcome.ok "System health degraded (API issues)"
      else StepOutcome.ok "Health check completed with warnings"
    | ExecOutcome.failure _ =>
      StepOutcome.ok "Health check warnings: API credentials may need setup"

/-- The `listr2` sequential task runner the source invokes (modelled from
that library's documented semantics, with the options src/start.js passes
at lines 552-559): with `exitOnError = false` every task runs, failures
are collected and the returned promise resolves (second component
`none`); with `exitOnError = true` the first failure aborts the remaining
tasks and `run()` rejects with it. -/
def listrRun (exitOnError : Bool) : List StepOutcome → List StepOutcome × Option String
  | [] => ([], none)
  | t :: ts =>
    match t with
    | StepOutcome.ok m =>
      let r := listrRun exitOnError ts
      (StepOutcome.ok m :: r.1, r.2)
    | StepOutcome.err m =>
      if exitOnError then ([StepOutcome.err m], some m)
      else
        let r := listrRun exitOnError ts
        (StepOutcome.err m :: r.1, r.2)

/-- Method `ViralContentStartup.run()` (src/start.js lines 508-587): the task list
runs with `exitOnError: false`; only a rejection escaping `tasks.run()`
reaches the catch branch that calls `cleanup()` and `process.exit(1)`.
The result is the process exit code attributable to the pipeline. -/
def startupRunExitCode (steps : List StepOutcome) : Nat :=
  match (listrRun false steps).2 with
  | some _ => 1
  | none => 0

/-- The seven-step pipeline of the claim with step 1 (System Requirements
Check) failing and every later step succeeding. -/
def c2FailingSteps : List StepOutcome :=
  [StepOutcome.err "System Requirements Check failed",
   StepOutcome.ok "Dependencies installed",
   StepOutcome.ok "Tests passed",
   StepOutcome.ok "Coverage generated",
   StepOutcome.ok "Configuration valid",
   StepOutcome.ok "Health check passed",
   StepOutcome.ok "Dashboard running"]

/-- Counterexample to C2 as stated: a failure in step 1 does not abort the
remaining steps and does not produce a non-zero exit. Because the task
list is created with `exitOnError: false`, all seven tasks still run,
the runner resolves without rethrowing, and the pipeline contributes
exit code 0. -/
theorem fatal_step_does_not_abort_counterexample :
    (listrRun false c2FailingSteps).1.length = 7 ∧
    (listrRun false c2FailingSteps).2 = none ∧
    startupRunExitCode c2FailingSteps = 0 := by
  refine ⟨rfl, rfl, rfl⟩

theorem listrRun_no_exit_on_error (steps : List StepOutcome) :
    (listrRun false steps).1.length = steps.length ∧ (listrRun false steps).2 = none := by
  induction steps with
  | nil => exact ⟨rfl, rfl⟩
  | cons t ts ih =>
    cases t with
    | ok m => exact ⟨by simp [listrRun, ih.1], by simp [listrRun, ih.2]⟩
    | err m => exact ⟨by simp [listrRun, ih.1], by simp [listrRun, ih.2]⟩

/-- Claim C2 as amended: steps 5 and 6 indeed never fail — every branch of
`validateSystemConfiguration` and `runHealthCheck` returns a warning or
status string. But no step is fatal either: since the task list runs
with `exitOnError: false`, a failure in steps 1-3 or 7 does not abort
the remaining steps — every task still runs, the runner resolves, and
the pipeline never makes the process exit with a non-zero code; a
non-zero exit arises only from an exception outside the task list. -/
theorem startup_pipeline_never_fail_fast (skipValidation skipHealthCheck : Bool)
    (execValidation execHealth : ExecOutcome) (steps : List StepOutcome) :
    (validateSystemConfigurationStep skipValidation execValidation).isOk = true ∧
    (runHealthCheckStep skipHealthCheck execHealth).isOk = true ∧
    (listrRun false steps).1.length = steps.length ∧
    (listrRun false steps).2 = none ∧
    startupRunExitCode steps = 0 := by
  refine ⟨?_, ?_, (listrRun_no_exit_on_error steps).1, (listrRun_no_exit_on_error steps).2, ?_⟩
  · cases skipValidation with
    | true => rfl
    | false =>
      cases execValidation with
      | success stdout stderr =>
        show (if strIncludes stderr "FAIL" || strIncludes stdout "❌" then
            StepOutcome.ok "Configuration issues detected (API credentials may need setup)"
          else StepOutcome.ok "System configuration valid").isOk = true
        split <;> rfl
      | failure msg => rfl
  · cases skipHealthCheck with
    | true => rfl
    | false =>
      cases execHealth with
      | success stdout stderr =>
        show (if strIncludes stdout "HEALTHY" then StepOutcome.ok "System health check passed"
          else if strIncludes stdout "DEGRADED" then
            StepOutcome.ok "System health degraded (API issues)"
          else StepOutcome.ok "Health check completed with warnings").isOk = true
        split
        · rfl
        · split <;> rfl
      | failure msg => rfl
  · unfold startupRunExitCode
    rw [(listrRun_no_exit_on_error steps).2]

/-! ## Health checker (src/unnamed/part_006, class HealthChecker)

`generateHealthReport` runs five external probes — OpenAI, the two
RapidAPI endpoints (Instagram Scraper and TikTok API), Apify and
AirTable — each of which pushes one entry onto `this.healthData.errors`
when it fails, plus performance checks that push warnings, then
aggregates the overall status. -/

/-- The network outcome of one external probe. -/
inductive ProbeOutcome
  | success
  | failure (message : String)
  deriving DecidableEq

/-- The inputs that determine a health report: the five probe outcomes
(src/unnamed/part_006 lines 38-215), whether a gpt-4 model was listed
(line 50), and the two performance thresholds that push warnings
(lines 280-288). -/
structure HealthCheckInput where
  openai : ProbeOutcome
  instagramScraper : ProbeOutcome
  tiktokApi : ProbeOutcome
  apify : ProbeOutcome
  airtable : ProbeOutcome
  gpt4Available : Bool
  highMemory : Bool
  highDiskUsage : Bool
  deriving DecidableEq

/-- The error entry a probe pushes on failure, e.g.
`this.healthData.errors.push(...)` in each catch branch. -/
def probeError (serviceName : String) : ProbeOutcome → List String
  | ProbeOutcome.success => []
  | ProbeOutcome.failure msg => [serviceName ++ ": " ++ msg]

/-- Contents of `this.healthData.errors` after all checks: one entry per failing probe.
`checkRapidAPIHealth` (lines 83-137) loops over its two endpoints and
pushes one entry for each. -/
def healthErrors (i : HealthCheckInput) : List String :=
  probeError "OpenAI API" i.openai ++
  probeError "Instagram Scraper" i.instagramScraper ++
  probeError "TikTok API" i.tiktokApi ++
  probeError "Apify API" i.apify ++
  probeError "AirTable API" i.airtable

/-- Contents of `this.healthData.warnings` after all checks (lines 62-65, 280-288). -/
def healthWarnings (i : HealthCheckInput) : List String :=
  (if i.openai = ProbeOutcome.success ∧ i.gpt4Available = false then
    ["GPT-4 model not available"] else []) ++
  (if i.highMemory then ["High memory usage"] else []) ++
  (if i.highDiskUsage then ["High disk usage"] else [])

/-- The aggregation at the end of `generateHealthReport`
(src/unnamed/part_006 lines 412-422). -/
def overallStatus (errors warnings : List String) : String :=
  if errors.isEmpty = false then "unhealthy"
  else if warnings.isEmpty = false then "degraded"
  else "healthy"

/-- The overall status of the report generated from the given inputs. -/
def healthStatus (i : HealthCheckInput) : String :=
  overallStatus (healthErrors i) (healthWarnings i)

/-- The scenario of claim C6: every external probe fails with a network
error, nothing else is wrong. -/
def allProbesFail : HealthCheckInput :=
  { openai := ProbeOutcome.failure "Network Error",
    instagramScraper := ProbeOutcome.failure "Network Error",
    tiktokApi := ProbeOutcome.failure "Network Error",
    apify := ProbeOutcome.failure "Network Error",
    airtable := ProbeOutcome.failure "Network Error",
    gpt4Available := true, highMemory := false, highDiskUsage := false }

/-- Counterexample to C6 as stated: when every external probe fails with a
network error the report is indeed `unhealthy`, but the errors list has
five entries, not four — `checkRapidAPIHealth` probes two endpoints and
pushes one error for each, on top of the OpenAI, Apify and AirTable
entries. -/
theorem all_probes_fail_five_errors_counterexample :
    healthStatus allProbesFail = "unhealthy" ∧
    (healthErrors allProbesFail).length = 5 ∧
    (healthErrors allProbesFail).length ≠ 4 := by
  refine ⟨rfl, rfl, by decide⟩

/-- Claim C6 as amended: the overall status is `unhealthy` exactly when the
errors list is non-empty, `degraded` exactly when there are warnings but
no errors, and `healthy` exactly when there are neither; and when every
external probe fails with a network error the status is `unhealthy` with
five pairwise-distinct error entries, one per probe (the RapidAPI
service contributes two: Instagram Scraper and TikTok API). -/
theorem health_status_aggregation (i : HealthCheckInput) :
    (healthStatus i = "unhealthy" ↔ healthErrors i ≠ []) ∧
    (healthStatus i = "degraded" ↔ (healthErrors i = [] ∧ healthWarnings i ≠ [])) ∧
    (healthStatus i = "healthy" ↔ (healthErrors i = [] ∧ healthWarnings i = [])) ∧
    (healthStatus allProbesFail = "unhealthy" ∧
      (healthErrors allProbesFail).length = 5 ∧
      (healthErrors allProbesFail).Nodup) := by
  unfold healthStatus overallStatus
  refine ⟨?_, ?_, ?_, rfl, rfl, by decide⟩
  · cases he : (healthErrors i).isEmpty with
    | true =>
      simp [List.isEmpty_iff.mp he]
      split <;> decide
    | false =>
      have : healthErrors i ≠ [] := by
        intro h
        rw [h] at he
        exact absurd he (by decide)
      cases hw : (healthWarnings i).isEmpty <;> simp [this]
  · cases he : (healthErrors i).isEmpty with
    | true =>
      cases hw : (healthWarnings i).isEmpty with
      | true => simp [List.isEmpty_iff.mp he, List.isEmpty_iff.mp hw]
      | false =>
        have hw2 : healthWarnings i ≠ [] := by
          intro h
          rw [h] at hw
          exact absurd hw (by decide)
        simp [List.isEmpty_iff.mp he, hw2]
    | false =>
      have he2 : healthErrors i ≠ [] := by
        intro h
        rw [h] at he
        exact absurd he (by decide)
      simp [he2]
  · cases he : (healthErrors i).isEmpty with
    | true =>
      cases hw : (healthWarnings i).isEmpty with
      | true => simp [List.isEmpty_iff.mp he, List.isEmpty_iff.mp hw]
      | false =>
        have hw2 : healthWarnings i ≠ [] := by
          intro h
          rw [h] at hw
          exact absurd hw (by decide)
        simp [List.isEmpty_iff.mp he, hw2]
    | false =>
      have he2 : healthErrors i ≠ [] := by
        intro h
        rw [h] at he
        exact absurd he (by decide)
      simp [he2]

/-- Witness for C6 (amended): the all-probes-fail scenario evaluates to an
unhealthy report through the aggregation rule. -/
theorem health_status_aggregation_witness :
    healthStatus allProbesFail = "unhealthy" :=
  (health_status_aggregation allProbesFail).1.mpr (by decide)

/-- The value `HealthChecker.run()` resolves with (src/unnamed/part_006
lines 510-528): when no exception escapes the checks, success is
`this.healthData.status !== 'unhealthy'`; the catch branch resolves with
`success: false`. `internalError` carries the message of an exception
thrown inside `run`, if any. -/
def healthCheckerRun (i : HealthCheckInput) (internalError : Option String) : Bool :=
  match internalError with
  | some _ => false
  | none => decide (healthStatus i ≠ "unhealthy")

/-- The exit code of the direct-execution block (src/unnamed/part_006 lines
532-541): `process.exit(result.success ? 0 : 1)`. -/
def healthCheckMainExitCode (i : HealthCheckInput) (internalError : Option String) : Nat :=
  if healthCheckerRun i internalError then 0 else 1

/-- A degraded-but-successful scenario: every probe succeeds while the
memory warning fires, so the report is `degraded`. -/
def degradedInput : HealthCheckInput :=
  { openai := ProbeOutcome.success,
    instagramScraper := ProbeOutcome.success,
    tiktokApi := ProbeOutcome.success,
    apify := ProbeOutcome.success,
    airtable := ProbeOutcome.success,
    gpt4Available := true, highMemory := true, highDiskUsage := false }

/-- Claim C10: `run()` succeeds iff the aggregated status is not
`unhealthy` and no exception escaped, the direct-execution block exits 0
exactly in that case and 1 otherwise; in particular a degraded run — as
in `degradedInput`, warnings only — still reports success and exits 0,
while an internal failure exits 1. -/
theorem health_run_success_iff_not_unhealthy (i : HealthCheckInput) (msg : String) :
    (healthCheckerRun i none = true ↔ healthStatus i ≠ "unhealthy") ∧
    healthCheckerRun i (some msg) = false ∧
    healthCheckMainExitCode i none = (if healthStatus i = "unhealthy" then 1 else 0) ∧
    healthCheckMainExitCode i (some msg) = 1 ∧
    healthStatus degradedInput = "degraded" ∧
    healthCheckMainExitCode degradedInput none = 0 := by
  refine ⟨by simp [healthCheckerRun], rfl, ?_, rfl, rfl, rfl⟩
  unfold healthCheckMainExitCode healthCheckerRun
  by_cases h : healthStatus i = "unhealthy" <;> simp [h]

/-- Witness for C10: applied to the degraded scenario, `run()` reports
success. -/
theorem health_run_success_iff_not_unhealthy_witness :
    healthCheckerRun degradedInput none = true :=
  (health_run_success_iff_not_unhealthy degradedInput "boom").1.mpr (by decide)

/-! ## Setup validator (src/scripts/validate-setup.js, class SetupValidator)

`check(description, fn)` (lines 33-54) wraps every validation in a
try/catch: a thrown exception is recorded in `this.errors` exactly like a
returned `{success: false}`, so no check throws out of the validator.
`validateConfigurationFiles` (lines 137-186) checks existence, JSON
parsability and required top-level keys of the two config files. -/

/-- The top-level keys `validateConfigurationFiles` requires of
`config/airtable-schema.json` (line 164). -/
structure AirtableSchemaKeys where
  hasTables : Bool
  hasBaseName : Bool
  deriving DecidableEq

/-- The top-level keys `validateConfigurationFiles` requires of
`config/platforms.json` (line 171). -/
structure PlatformsKeys where
  hasInstagram : Bool
  hasLinkedin : Bool
  hasTiktok : Bool
  deriving DecidableEq

/-- A configuration file as the validator can observe it: absent,
present but not valid JSON, or parsed. -/
inductive ConfigFile (α : Type)
  | missing
  | unparseable (msg : String)
  | parsed (value : α)
  deriving DecidableEq

/-- The file-system facts `validateConfigurationFiles` reads. -/
structure ConfigFS where
  airtableSchema : ConfigFile AirtableSchemaKeys
  platforms : ConfigFile PlatformsKeys
  envExampleExists : Bool
  deriving DecidableEq

/-- The `{success, message}` object a validation function returns. -/
structure CheckOutcome where
  success : Bool
  message : String
  deriving DecidableEq

/-- Method `validateConfigurationFiles()` (src/scripts/validate-setup.js lines
137-186): existence of the three files first, then JSON parsing of both
configs (the schema is parsed first, so its parse error wins), then the
structural key checks, schema before platforms. -/
def validateConfigurationFiles (fsv : ConfigFS) : CheckOutcome :=
  if fsv.airtableSchema = ConfigFile.missing then
    ⟨false, "Missing configuration file: config/airtable-schema.json"⟩
  else if fsv.platforms = ConfigFile.missing then
    ⟨false, "Missing configuration file: config/platforms.json"⟩
  else if fsv.envExampleExists = false then
    ⟨false, "Missing configuration file: .env.example"⟩
  else
    match fsv.airtableSchema, fsv.platforms with
    | ConfigFile.missing, _ =>
      ⟨false, "Missing configuration file: config/airtable-schema.json"⟩
    | _, ConfigFile.missing =>
      ⟨false, "Missing configuration file: config/platforms.json"⟩
    | ConfigFile.unparseable m, _ =>
      ⟨false, "Error parsing configuration files: " ++ m⟩
    | _, ConfigFile.unparseable m =>
      ⟨false, "Error parsing configuration files: " ++ m⟩
    | ConfigFile.parsed a, ConfigFile.parsed p =>
      if a.hasTables = false ∨ a.hasBaseName = false then
        ⟨false, "Invalid AirTable schema structure"⟩
      else if p.hasInstagram = false ∨ p.hasLinkedin = false ∨ p.hasTiktok = false then
        ⟨false, "Invalid platforms configuration structure"⟩
      else ⟨true, ""⟩

/-- The running tallies of `SetupValidator` (lines 14-19). -/
structure ValidatorState where
  checks : Nat
  passed : Nat
  errors : List String
  warnings : List String
  deriving DecidableEq

/-- Method `check(description, validationFn)` (lines 33-54): the counter always
advances; a `{success: true}` result bumps `passed`; a failing result or
a thrown exception (`Except.error`) appends to `errors`. The function is
total: no exception escapes. -/
def runCheck (st : ValidatorState) (description : String)
    (validation : Except String CheckOutcome) : ValidatorState :=
  let st1 : ValidatorState := { st with checks := st.checks + 1 }
  match validation with
  | Except.ok r =>
    if r.success then { st1 with passed := st1.passed + 1 }
    else { st1 with errors := st1.errors ++ [description ++ ": " ++ r.message] }
  | Except.error m =>
    { st1 with errors := st1.errors ++ [description ++ ": " ++ m] }

/-- The sequence of checks `runValidation()` performs (lines 453-473),
abstracted over the individual outcomes. -/
def runChecks (st : ValidatorState) :
    List (String × Except String CheckOutcome) → ValidatorState
  | [] => st
  | c :: cs => runChecks (runCheck st c.1 c.2) cs

/-- The overall result of `runValidation()` (line 479):
`success: this.errors.length === 0`. -/
def validationSuccess (st : ValidatorState) : Bool :=
  st.errors.isEmpty

/-- The validator state before any check. -/
def initialValidatorState : ValidatorState :=
  ⟨0, 0, [], []⟩

/-- The C9 scenario: every config file exists and parses, the schema has
its required keys, but `config/platforms.json` holds the empty object,
so none of the three required platform keys is present. -/
def emptyPlatformsFS : ConfigFS :=
  { airtableSchema := ConfigFile.parsed ⟨true, true⟩,
    platforms := ConfigFile.parsed ⟨false, false, false⟩,
    envExampleExists := true }

theorem runCheck_errors_ne_nil (st : ValidatorState) (d : String)
    (v : Except String CheckOutcome) (h : st.errors ≠ []) :
    (runCheck st d v).errors ≠ [] := by
  unfold runCheck
  cases v with
  | ok r =>
    by_cases hs : r.success = true
    · simpa [hs]
    · simp only [Bool.not_eq_true] at hs
      simp [hs]
  | error m => simp

theorem runChecks_errors_ne_nil (cs : List (String × Except String CheckOutcome)) :
    ∀ st : ValidatorState, st.errors ≠ [] → (runChecks st cs).errors ≠ [] := by
  induction cs with
  | nil => intro st h; exact h
  | cons c rest ih =>
    intro st h
    exact ih (runCheck st c.1 c.2) (runCheck_errors_ne_nil st c.1 c.2 h)

theorem runChecks_append (st : ValidatorState)
    (as bs : List (String × Except String CheckOutcome)) :
    runChecks st (as ++ bs) = runChecks (runChecks st as) bs := by
  induction as generalizing st with
  | nil => rfl
  | cons a rest ih => simp [runChecks, ih]

/-- Claim C9: on a syntactically valid but semantically empty platforms
configuration (the empty JSON object), `validateConfigurationFiles` returns the
invalid-structure failure rather than throwing; wherever that check sits
in the validation sequence, the failure is recorded in the errors list
and the overall result reports `success: false`. -/
theorem empty_platforms_config_fails_validation
    (pre post : List (String × Except String CheckOutcome)) :
    validateConfigurationFiles emptyPlatformsFS =
      ⟨false, "Invalid platforms configuration structure"⟩ ∧
    (runChecks initialValidatorState (pre ++
      ("Configuration files",
        Except.ok (validateConfigurationFiles emptyPlatformsFS)) :: post)).errors ≠ [] ∧
    validationSuccess (runChecks initialValidatorState (pre ++
      ("Configuration files",
        Except.ok (validateConfigurationFiles emptyPlatformsFS)) :: post)) = false := by
  have hval : validateConfigurationFiles emptyPlatformsFS =
      ⟨false, "Invalid platforms configuration structure"⟩ := rfl
  have hmid : ∀ st : ValidatorState,
      (runCheck st "Configuration files"
        (Except.ok (validateConfigurationFiles emptyPlatformsFS))).errors ≠ [] := by
    intro st
    rw [hval]
    simp [runCheck]
  have hne : (runChecks initialValidatorState (pre ++
      ("Configuration files",
        Except.ok (validateConfigurationFiles emptyPlatformsFS)) :: post)).errors ≠ [] := by
    rw [runChecks_append]
    exact runChecks_errors_ne_nil post _
      (hmid (runChecks initialValidatorState pre))
  refine ⟨hval, hne, ?_⟩
  unfold validationSuccess
  cases herr : (runChecks initialValidatorState (pre ++
      ("Configuration files",
        Except.ok (validateConfigurationFiles emptyPlatformsFS)) :: post)).errors with
  | nil => exact absurd herr hne
  | cons a rest => simp [herr]

end HstMarketing
